import Mathlib

/-!
Verification of the aura-stack router core against its specification.

The definitions below are a shallow embedding of the TypeScript sources:
  * src/error.ts        — status codes, RouterError, InvalidZodSchemaError
  * src/trie.ts         — TrieRouter (add / match) and the trie node shape
  * src/router.ts       — the legacy insert/search trie and the current
                          handleRequest / createRouter orchestrator
  * src/middlewares.ts  — executeGlobalMiddlewares / executeMiddlewares
  * src/context.ts      — getRouteParams / getSearchParams / getBody
  * src/on-error.ts     — onError

JavaScript runtime features are modelled explicitly: a JS Map is an
association list with replace-in-place-or-append insertion, thrown
exceptions are an Except error channel, async/await collapses to direct
calls (the pipelines are strictly sequential), and the platform functions
decodeURIComponent and the Request body decoders are modelled at the
interface granularity the source relies on.
-/

/-- Apostrophe character as a string (U+0027), used in router messages. -/
def apos : String := String.singleton (Char.ofNat 39)

/-- Lookup in an association list, first binding wins — JS Map.get. -/
def mapGet {κ α : Type} [DecidableEq κ] : List (κ × α) → κ → Option α
  | [], _ => none
  | (k2, v) :: rest, k => if k2 = k then some v else mapGet rest k

/-- Insertion into an association list with the JS Map.set semantics:
an existing key is updated in place (keeping its position), a new key is
appended at the end. Plain-object property assignment behaves the same
way, so this also models statements of the form object[key] = value. -/
def mapSet {κ α : Type} [DecidableEq κ] : List (κ × α) → κ → α → List (κ × α)
  | [], k, v => [(k, v)]
  | (k2, w) :: rest, k, v =>
    if k2 = k then (k2, v) :: rest else (k2, w) :: mapSet rest k v

/-- The HTTP methods of types.ts (HTTPMethod union type). -/
inductive HTTPMethod where
  | GET | POST | DELETE | PUT | PATCH | OPTIONS | HEAD | TRACE | CONNECT
  deriving DecidableEq, Repr

/-- String form of a method, as it appears in Request.method and in the
static fast-path keys built by TrieRouter. -/
def methodStr : HTTPMethod → String
  | .GET => "GET"
  | .POST => "POST"
  | .DELETE => "DELETE"
  | .PUT => "PUT"
  | .PATCH => "PATCH"
  | .OPTIONS => "OPTIONS"
  | .HEAD => "HEAD"
  | .TRACE => "TRACE"
  | .CONNECT => "CONNECT"

/-- The supportedMethods set of assert.ts; isSupportedMethod on a single
method string. -/
def isSupportedMethod (method : String) : Bool :=
  (["GET", "POST", "DELETE", "PUT", "PATCH", "OPTIONS", "HEAD", "TRACE", "CONNECT"]).contains method

/-- The supportedBodyMethods set of assert.ts; isSupportedBodyMethod. -/
def isSupportedBodyMethod (method : String) : Bool :=
  (["POST", "PUT", "PATCH"]).contains method

/-- Status-code keys of the statusCode table in error.ts. -/
inductive StatusCode where
  | OK | CREATED | ACCEPTED | NO_CONTENT | MULTIPLE_CHOICES | MOVED_PERMANENTLY
  | FOUND | SEE_OTHER | NOT_MODIFIED | TEMPORARY_REDIRECT | BAD_REQUEST
  | UNAUTHORIZED | PAYMENT_REQUIRED | FORBIDDEN | NOT_FOUND | METHOD_NOT_ALLOWED
  | NOT_ACCEPTABLE | PROXY_AUTHENTICATION_REQUIRED | UNPROCESSABLE_ENTITY
  | INTERNAL_SERVER_ERROR | NOT_IMPLEMENTED | BAD_GATEWAY | SERVICE_UNAVAILABLE
  | HTTP_VERSION_NOT_SUPPORTED
  deriving DecidableEq, Repr

/-- The numeric statusCode table of error.ts. -/
def statusCodeOf : StatusCode → Nat
  | .OK => 200
  | .CREATED => 201
  | .ACCEPTED => 202
  | .NO_CONTENT => 204
  | .MULTIPLE_CHOICES => 300
  | .MOVED_PERMANENTLY => 301
  | .FOUND => 302
  | .SEE_OTHER => 303
  | .NOT_MODIFIED => 304
  | .TEMPORARY_REDIRECT => 307
  | .BAD_REQUEST => 400
  | .UNAUTHORIZED => 401
  | .PAYMENT_REQUIRED => 402
  | .FORBIDDEN => 403
  | .NOT_FOUND => 404
  | .METHOD_NOT_ALLOWED => 405
  | .NOT_ACCEPTABLE => 406
  | .PROXY_AUTHENTICATION_REQUIRED => 407
  | .UNPROCESSABLE_ENTITY => 422
  | .INTERNAL_SERVER_ERROR => 500
  | .NOT_IMPLEMENTED => 501
  | .BAD_GATEWAY => 502
  | .SERVICE_UNAVAILABLE => 503
  | .HTTP_VERSION_NOT_SUPPORTED => 505

/-- The statusText table of error.ts: each key maps to its own name. -/
def statusTextOf : StatusCode → String
  | .OK => "OK"
  | .CREATED => "CREATED"
  | .ACCEPTED => "ACCEPTED"
  | .NO_CONTENT => "NO_CONTENT"
  | .MULTIPLE_CHOICES => "MULTIPLE_CHOICES"
  | .MOVED_PERMANENTLY => "MOVED_PERMANENTLY"
  | .FOUND => "FOUND"
  | .SEE_OTHER => "SEE_OTHER"
  | .NOT_MODIFIED => "NOT_MODIFIED"
  | .TEMPORARY_REDIRECT => "TEMPORARY_REDIRECT"
  | .BAD_REQUEST => "BAD_REQUEST"
  | .UNAUTHORIZED => "UNAUTHORIZED"
  | .PAYMENT_REQUIRED => "PAYMENT_REQUIRED"
  | .FORBIDDEN => "FORBIDDEN"
  | .NOT_FOUND => "NOT_FOUND"
  | .METHOD_NOT_ALLOWED => "METHOD_NOT_ALLOWED"
  | .NOT_ACCEPTABLE => "NOT_ACCEPTABLE"
  | .PROXY_AUTHENTICATION_REQUIRED => "PROXY_AUTHENTICATION_REQUIRED"
  | .UNPROCESSABLE_ENTITY => "UNPROCESSABLE_ENTITY"
  | .INTERNAL_SERVER_ERROR => "INTERNAL_SERVER_ERROR"
  | .NOT_IMPLEMENTED => "NOT_IMPLEMENTED"
  | .BAD_GATEWAY => "BAD_GATEWAY"
  | .SERVICE_UNAVAILABLE => "SERVICE_UNAVAILABLE"
  | .HTTP_VERSION_NOT_SUPPORTED => "HTTP_VERSION_NOT_SUPPORTED"

/-- JSON values, used for request bodies, validated data and response
bodies produced by Response.json. Objects are ordered field lists, as in
JavaScript. -/
inductive JsonV where
  | str (s : String)
  | num (n : Int)
  | boolean (b : Bool)
  | null
  | arr (items : List JsonV)
  | obj (fields : List (String × JsonV))

/-- One formatted field error, the value shape built by formatZodError in
context.ts: an object with a code and a message. -/
structure FieldErr where
  code : String
  message : String
  deriving DecidableEq, Repr

/-- One issue of a ZodError, as consumed by formatZodError: a path of
field segments plus a code and a message (the validator boundary of the
spec, §6). -/
structure ZodIssue where
  path : List String
  code : String
  message : String

/-- Result of ZodObject.safeParse at the validator capability boundary:
either parsed data or an issue list. -/
inductive ParseResult where
  | success (data : JsonV)
  | failure (issues : List ZodIssue)

/-- An opaque validator schema: the router only ever calls safeParse and
inspects the outcome (spec §6, validator capability boundary). -/
structure ZodSchema where
  safeParse : JsonV → ParseResult

/-- The errors thrown at request time.  routerError embeds the
RouterError class of error.ts (status key plus message), zodError embeds
InvalidZodSchemaError (status key plus formatted field-error map),
uriError is the URIError thrown by the platform decodeURIComponent, and
jsError is any other platform or user exception (for example the
SyntaxError thrown by Request.json on malformed JSON, or an exception
raised inside a handler). -/
inductive RuntimeError where
  | routerError (type : StatusCode) (message : String)
  | zodError (type : StatusCode) (errors : List (String × FieldErr))
  | uriError
  | jsError (message : String)

/-- The isRouterError predicate of assert.ts: an instanceof check for the
RouterError class. -/
def isRouterError : RuntimeError → Bool
  | .routerError _ _ => true
  | _ => false

/-- The isInvalidZodSchemaError predicate of assert.ts. -/
def isInvalidZodSchemaError : RuntimeError → Bool
  | .zodError _ _ => true
  | _ => false

/-- A Response value: Response.json(body, init) is modelled as the
status, the statusText and the JSON body it serializes. Responses built
directly by middlewares or handlers are arbitrary values of this type. -/
structure Response where
  status : Nat
  statusText : String
  body : JsonV

/-- The parsed URL of a request: the new URL(request.url) object, of
which the router reads pathname and searchParams. -/
structure URLVal where
  pathname : String
  searchParams : List (String × String)

/-- Decode outcomes of the platform body readers on a Request clone.
Each field models one reader (json / formData / text / arrayBuffer /
blob); none means that reader throws on this payload (for example json
is none when the raw bytes are not valid JSON). -/
structure BodyStream where
  json : Option JsonV := none
  form : Option (List (String × String)) := none
  text : Option String := none
  bytes : Option (List Nat) := none
  blob : Option (List Nat) := none

/-- An incoming Request at the granularity the router reads it: the
method string, the parsed URL, the header list and the body stream.
Header lookup is case-insensitive as in the platform Headers class. -/
structure Request where
  method : String
  url : URLVal
  headers : List (String × String)
  stream : BodyStream := {}

/-- Lowercasing of a header name, character by character (the platform
Headers class compares names case-insensitively). -/
def lowerStr (s : String) : String :=
  String.mk (s.data.map Char.toLower)

/-- Case-insensitive header lookup: Headers.get. -/
def hget (hs : List (String × String)) (key : String) : Option String :=
  (hs.find? (fun p => lowerStr p.1 == lowerStr key)).map (fun p => p.2)

/-- The route.includes(colon) dynamic-route test of TrieRouter.add,
phrased over the character list. -/
def strHasColon (s : String) : Bool :=
  s.data.contains ':'

/-- The segment.startsWith(colon) test of the trie walks, phrased over
the character list. -/
def startsWithColon (s : String) : Bool :=
  match s.data with
  | [] => false
  | c :: _ => c = ':'

/-- Substring test over characters, used to model String.includes and
the literal-alternation regexes of createContentTypeRegex. -/
def charsIncl (pat : List Char) : List Char → Bool
  | [] => pat.isEmpty
  | c :: cs => pat.isPrefixOf (c :: cs) || charsIncl pat cs

/-- The String.includes test of JavaScript. -/
def strIncludes (s pat : String) : Bool :=
  charsIncl pat.data s.data

/-- The createContentTypeRegex helper of context.ts: the regex built
from joining the content types with a pipe matches the header exactly
when one of the literal alternatives occurs as a substring. -/
def ctMatch (contentTypes : List String) (contentType : String) : Bool :=
  contentTypes.any (fun p => strIncludes contentType p)

/-- Splitting a character list at every slash, keeping empty pieces
(the unfiltered String.split of JavaScript). -/
def splitSlash : List Char → List (List Char)
  | [] => [[]]
  | c :: cs =>
    if c = '/' then [] :: splitSlash cs
    else
      match splitSlash cs with
      | [] => [[c]]
      | s :: rest => (c :: s) :: rest

/-- Path and route segmentation.  The indexOf loops of TrieRouter.add
and TrieRouter.match take every maximal slash-free slice and skip empty
slices (the end > prev guard); the legacy insert and search use
route.split(slash).filter(Boolean) with an explicit special case for the
root route.  Both compute exactly the nonempty slash-separated pieces
modelled here (the special case is subsumed: the root route has no
nonempty piece). -/
def segs (s : String) : List String :=
  ((splitSlash s.data).filter (fun l => !l.isEmpty)).map (fun cs => String.mk cs)

/-- Value of one hexadecimal digit, as accepted in a percent escape. -/
def hexDigit (c : Char) : Option Nat :=
  if (Char.ofNat 48) ≤ c ∧ c ≤ (Char.ofNat 57) then some (c.toNat - 48)
  else if (Char.ofNat 97) ≤ c ∧ c ≤ (Char.ofNat 102) then some (c.toNat - 87)
  else if (Char.ofNat 65) ≤ c ∧ c ≤ (Char.ofNat 70) then some (c.toNat - 55)
  else none

/-- Percent-escape unescaping for the platform decodeURIComponent.
Returns none exactly when a percent sign is not followed by two
hexadecimal digits, which is the URIError case the router can hit.
Simplification of the platform function: each unescaped byte becomes a
character directly, the UTF-8 re-decoding of the unescaped byte
sequence is not modelled (no claim depends on the decoded value of
multi-byte escapes). -/
def pctDecodeChars : List Char → Option (List Char)
  | [] => some []
  | '%' :: c1 :: c2 :: rest =>
    match hexDigit c1, hexDigit c2 with
    | some h1, some h2 => (pctDecodeChars rest).map (fun r => Char.ofNat (16 * h1 + h2) :: r)
    | _, _ => none
  | '%' :: _ => none
  | c :: cs => (pctDecodeChars cs).map (fun r => c :: r)

/-- The platform decodeURIComponent: none models a thrown URIError. -/
def decodeURIComponent (s : String) : Option String :=
  (pctDecodeChars s.data).map (fun cs => String.mk cs)

/-- Trie node shape shared by trie.ts (TrieNode class) and router.ts
(TrieNode interface): static children keyed by literal segment, at most
one parameter child carrying its capture name, and terminal endpoint
registrations keyed by method.  Parametric in the endpoint payload so
the current and the legacy router share it. -/
inductive Trie (ε : Type) where
  | mk (statics : List (String × Trie ε)) (param : Option (String × Trie ε))
       (endpoints : List (HTTPMethod × ε))

/-- Static children of a node. -/
def Trie.statics {ε : Type} : Trie ε → List (String × Trie ε)
  | .mk s _ _ => s

/-- Parameter child of a node. -/
def Trie.param {ε : Type} : Trie ε → Option (String × Trie ε)
  | .mk _ p _ => p

/-- Endpoint registrations at a node. -/
def Trie.endpoints {ε : Type} : Trie ε → List (HTTPMethod × ε)
  | .mk _ _ e => e

/-- The createNode factory: an empty node. -/
def createNode {ε : Type} : Trie ε := .mk [] none []

/-- Human messages thrown by the router, written exactly as in the
source (string interpolation spelled out). -/
def methodNotSupportedMsg (m : String) : String :=
  "The HTTP method " ++ apos ++ m ++ apos ++ " is not supported"

/-- Message of the method mismatch error in handleRequest. -/
def methodNotAllowedMsg (m : String) : String :=
  "The HTTP method " ++ apos ++ m ++ apos ++ " is not allowed"

/-- Message of the parameter-name conflict error in TrieRouter.add and
in the legacy insert. -/
def conflictMsg (pname name : String) : String :=
  "Conflicting in the route by the dynamic segment \"" ++ pname ++ "\" and \"" ++ name ++ "\""

/-- Message of the duplicate-endpoint error in the legacy insert. -/
def dupMsg (m : HTTPMethod) (route : String) : String :=
  "Duplicate endpoint for " ++ methodStr m ++ " " ++ route

/-- Message of the not-found error in handleRequest and search. -/
def noRouteMsg (p : String) : String :=
  "No route found for path: " ++ p

/-- Message of the collapsed per-endpoint middleware error. -/
def handlerThrewMsg : String := "Handler threw an error"

/-- Message thrown on a non-function per-endpoint middleware entry. -/
def mwFnMsg : String := "Middleware must be a function"

/-- Message thrown on a non-function global middleware entry. -/
def gmFnMsg : String := "Global middlewares must be functions"

/-- Message thrown when the global chain ends on an invalid context. -/
def gmRetMsg : String := "Global middleware must return a Request or Response object"

/-- Message of the unprocessable-body RouterError in getBody. -/
def bodyUnprocMsg : String :=
  "Invalid request body, the content-type does not match the body format"

/-- The body slot of a request context: null for body-less methods, or
the value produced by the decoder branch taken in getBody. -/
inductive BodyVal where
  | null
  | json (v : JsonV)
  | form (d : List (String × String))
  | text (s : String)
  | bytes (b : List Nat)
  | blob (b : List Nat)

/-- The searchParams slot of a request context: a URLSearchParams copy
when no schema is configured, the validated value otherwise (the
type-level distinction of spec §4.2). -/
inductive SearchParamsVal where
  | raw (params : List (String × String))
  | parsed (v : JsonV)

/-- The RequestContext of types.ts handed to per-endpoint middlewares
and the handler.  The headers field models the HeadersBuilder wrapped
around the request headers; params carries either the raw string map
(encoded as a JSON object of strings) or the schema-validated value. -/
structure RequestContext where
  params : JsonV
  searchParams : SearchParamsVal
  headers : List (String × String)
  body : BodyVal
  request : Request
  url : URLVal
  method : String
  route : String
  context : JsonV

/-- One entry of a per-endpoint middleware list: a function from context
to context that may throw, or a non-function value (the typeof check in
executeMiddlewares). -/
inductive EpMW where
  | fn (f : RequestContext → Except RuntimeError RequestContext)
  | notFn

/-- The schemas slot of an endpoint configuration. -/
structure EndpointSchemas where
  body : Option ZodSchema := none
  searchParams : Option ZodSchema := none
  params : Option ZodSchema := none

/-- EndpointConfig of types.ts: optional schemas and the optional
per-endpoint middleware list (the use field). -/
structure EndpointConfig where
  schemas : Option EndpointSchemas := none
  use : Option (List EpMW) := none

/-- The params schema reachable through config.schemas?.params. -/
def EndpointConfig.paramsSchema (c : EndpointConfig) : Option ZodSchema :=
  c.schemas.bind (fun s => s.params)

/-- The searchParams schema reachable through config.schemas?.searchParams. -/
def EndpointConfig.searchSchema (c : EndpointConfig) : Option ZodSchema :=
  c.schemas.bind (fun s => s.searchParams)

/-- The body schema reachable through config.schemas?.body. -/
def EndpointConfig.bodySchema (c : EndpointConfig) : Option ZodSchema :=
  c.schemas.bind (fun s => s.body)

/-- The method field of a RouteEndpoint: a single method or an array of
methods (types.ts allows both). -/
inductive MethodSpec where
  | one (m : HTTPMethod)
  | many (ms : List HTTPMethod)

/-- The Array.isArray normalization done by TrieRouter.add. -/
def MethodSpec.toList : MethodSpec → List HTTPMethod
  | .one m => [m]
  | .many ms => ms

/-- RouteEndpoint of types.ts: method(s), route pattern, handler and
configuration.  The handler may throw, hence the Except result. -/
structure RouteEndpoint where
  method : MethodSpec
  route : String
  handler : RequestContext → Except RuntimeError Response
  config : EndpointConfig := {}

/-- Endpoint for the legacy insert/search router of router.ts, whose
insert keys the terminal map on the single method field. -/
structure LegacyEndpoint where
  method : HTTPMethod
  route : String
  handler : RequestContext → Except RuntimeError Response
  config : EndpointConfig := {}

/-- The TrieRouter class of trie.ts: a trie root for dynamic routes, the
static fast-path map keyed by method-space-pattern strings, and the set
of registered methods. -/
structure TrieRouter where
  root : Trie RouteEndpoint := createNode
  statics : List (String × RouteEndpoint) := []
  methods : List HTTPMethod := []

/-- Key of the static fast-path map: the template `method pattern`. -/
def staticKey (m : HTTPMethod) (route : String) : String :=
  methodStr m ++ " " ++ route

/-- The segment walk of TrieRouter.add over a dynamic route pattern:
descend into (creating if absent) the static child for a literal
segment; for a colon segment create or reuse the parameter child,
throwing the conflict RouterError when the node already holds a
parameter child with a different name; at the end of the pattern set the
endpoint under every declared method (Map.set, silently overwriting an
existing registration). -/
def insertPath (node : Trie RouteEndpoint) (segments : List String)
    (methods : List HTTPMethod) (e : RouteEndpoint) :
    Except RuntimeError (Trie RouteEndpoint) :=
  match segments with
  | [] =>
    .ok (.mk node.statics node.param
      (methods.foldl (fun eps m => mapSet eps m e) node.endpoints))
  | seg :: rest =>
    if startsWithColon seg then
      let name := seg.drop 1
      match node.param with
      | none =>
        match insertPath createNode rest methods e with
        | .error err => .error err
        | .ok child => .ok (.mk node.statics (some (name, child)) node.endpoints)
      | some (pname, pnode) =>
        if pname ≠ name then
          .error (.routerError .BAD_REQUEST (conflictMsg pname name))
        else
          match insertPath pnode rest methods e with
          | .error err => .error err
          | .ok child => .ok (.mk node.statics (some (pname, child)) node.endpoints)
    else
      match insertPath ((mapGet node.statics seg).getD createNode) rest methods e with
      | .error err => .error err
      | .ok child => .ok (.mk (mapSet node.statics seg child) node.param node.endpoints)

/-- TrieRouter.add of trie.ts.  A route containing no colon goes only to
the static map, keyed per method; a dynamic route is walked into the
trie.  Either way every declared method joins the methods set.  Note the
absence of any duplicate check: Map.set overwrites. -/
def TrieRouter.add (r : TrieRouter) (endpoint : RouteEndpoint) :
    Except RuntimeError TrieRouter :=
  let isDynamic := strHasColon endpoint.route
  let methods := endpoint.method.toList
  let addMethods := methods.foldl (fun acc m => if acc.contains m then acc else acc ++ [m]) r.methods
  if isDynamic then
    match insertPath r.root (segs endpoint.route) methods endpoint with
    | .error err => .error err
    | .ok root2 => .ok { root := root2, statics := r.statics, methods := addMethods }
  else
    .ok { root := r.root,
          statics := methods.foldl (fun st m => mapSet st (staticKey m endpoint.route) endpoint) r.statics,
          methods := addMethods }

/-- The matching walk of TrieRouter.match over the path segments: a
literal child matching the segment is preferred; otherwise the parameter
child captures the percent-decoded segment (decodeURIComponent may throw
URIError, the error channel); with neither the walk fails with a null
result. -/
def matchWalk (node : Trie RouteEndpoint) (segments : List String)
    (params : List (String × String)) :
    Except RuntimeError (Option (Trie RouteEndpoint × List (String × String))) :=
  match segments with
  | [] => .ok (some (node, params))
  | seg :: rest =>
    match mapGet node.statics seg with
    | some child => matchWalk child rest params
    | none =>
      match node.param with
      | none => .ok none
      | some (name, pnode) =>
        match decodeURIComponent seg with
        | none => .error .uriError
        | some v => matchWalk pnode rest (mapSet params name v)

/-- The trie part of TrieRouter.match: walk the path, then look the
method up at the arrived node, null when absent. -/
def dynamicMatch (root : Trie RouteEndpoint) (method : HTTPMethod) (pathname : String) :
    Except RuntimeError (Option (RouteEndpoint × List (String × String))) :=
  match matchWalk root (segs pathname) [] with
  | .error e => .error e
  | .ok none => .ok none
  | .ok (some (node, params)) =>
    match mapGet node.endpoints method with
    | none => .ok none
    | some e => .ok (some (e, params))

/-- TrieRouter.match of trie.ts: the static fast path first (exact
method-space-pathname key, empty params), the trie walk otherwise. -/
def TrieRouter.matchRoute (r : TrieRouter) (method : HTTPMethod) (pathname : String) :
    Except RuntimeError (Option (RouteEndpoint × List (String × String))) :=
  match mapGet r.statics (staticKey method pathname) with
  | some e => .ok (some (e, []))
  | none => dynamicMatch r.root method pathname

/-- The legacy insert of router.ts (renamed insertSeg here, since the
bare name insert is taken by the ambient library): every route, static
or dynamic, is walked into the trie; at the terminal node a registration
already present for the method raises the duplicate-endpoint
RouterError, otherwise the endpoint is stored under its single
method. -/
def insertSeg (node : Trie LegacyEndpoint) (segments : List String) (endpoint : LegacyEndpoint) :
    Except RuntimeError (Trie LegacyEndpoint) :=
  match segments with
  | [] =>
    if (mapGet node.endpoints endpoint.method).isSome then
      .error (.routerError .BAD_REQUEST (dupMsg endpoint.method endpoint.route))
    else
      .ok (.mk node.statics node.param (mapSet node.endpoints endpoint.method endpoint))
  | seg :: rest =>
    if startsWithColon seg then
      let name := seg.drop 1
      match node.param with
      | none =>
        match insertSeg createNode rest endpoint with
        | .error err => .error err
        | .ok child => .ok (.mk node.statics (some (name, child)) node.endpoints)
      | some (pname, pnode) =>
        if pname ≠ name then
          .error (.routerError .BAD_REQUEST (conflictMsg pname name))
        else
          match insertSeg pnode rest endpoint with
          | .error err => .error err
          | .ok child => .ok (.mk node.statics (some (pname, child)) node.endpoints)
    else
      match insertSeg ((mapGet node.statics seg).getD createNode) rest endpoint with
      | .error err => .error err
      | .ok child => .ok (.mk (mapSet node.statics seg child) node.param node.endpoints)

/-- The legacy insert entry point, segmenting the route as the source
does (route split on slashes, empty pieces dropped). -/
def insertRoute (root : Trie LegacyEndpoint) (endpoint : LegacyEndpoint) :
    Except RuntimeError (Trie LegacyEndpoint) :=
  insertSeg root (segs endpoint.route) endpoint

/-- The pre-match global middleware context of types.ts:
GlobalMiddlewareContext holds the request and the shared application
context slot. -/
structure GlobalMiddlewareContext where
  request : Request
  context : JsonV

/-- The value a global middleware hands to the next stage: in JavaScript
it may be anything, and the chain-final check only accepts a value whose
request field is a Request instance.  valid carries a well-formed
context, invalid stands for any other returned value. -/
inductive GMCtxVal where
  | valid (c : GlobalMiddlewareContext)
  | invalid

/-- Outcome of calling one global middleware: a terminal Response, a
successor context value, or a thrown error. -/
inductive GMOutcome where
  | response (r : Response)
  | next (c : GMCtxVal)
  | raise (e : RuntimeError)

/-- One entry of the configured global middleware list: a function or a
non-function value (the typeof check). -/
inductive GMEntry where
  | fn (f : GMCtxVal → GMOutcome)
  | notFn

/-- The loop of executeGlobalMiddlewares: sequential execution, a
non-function entry throws, a returned Response short-circuits, otherwise
the returned value becomes the running context.  After the loop the
running value must be a context whose request is a Request instance,
else the chain throws. -/
def gmGo (context : GMCtxVal) (middlewares : List GMEntry) :
    Except RuntimeError (Response ⊕ GlobalMiddlewareContext) :=
  match middlewares with
  | [] =>
    match context with
    | .valid c => .ok (.inr c)
    | .invalid => .error (.routerError .BAD_REQUEST gmRetMsg)
  | mw :: rest =>
    match mw with
    | .notFn => .error (.routerError .BAD_REQUEST gmFnMsg)
    | .fn f =>
      match f context with
      | .response r => .ok (.inl r)
      | .raise e => .error e
      | .next c2 => gmGo c2 rest

/-- executeGlobalMiddlewares of middlewares.ts (the context-passing
variant used by the current handleRequest): an absent middleware list
returns the initial context unchanged. -/
def executeGlobalMiddlewares (context : GlobalMiddlewareContext)
    (middlewares : Option (List GMEntry)) :
    Except RuntimeError (Response ⊕ GlobalMiddlewareContext) :=
  match middlewares with
  | none => .ok (.inr context)
  | some mws => gmGo (.valid context) mws

/-- The loop body of executeMiddlewares, before the enclosing try/catch:
sequential execution, a non-function entry throws the function-shape
RouterError, a middleware call may itself throw. -/
def epGo (ctx : RequestContext) (middlewares : List EpMW) :
    Except RuntimeError RequestContext :=
  match middlewares with
  | [] => .ok ctx
  | .notFn :: _ => .error (.routerError .BAD_REQUEST mwFnMsg)
  | .fn f :: rest =>
    match f ctx with
    | .error e => .error e
    | .ok c2 => epGo c2 rest

/-- executeMiddlewares of middlewares.ts: the whole loop is wrapped in a
try/catch whose catch discards the caught error and throws the one
generic handler-threw RouterError.  An undefined middleware list
defaults to the empty list. -/
def executeMiddlewares (ctx : RequestContext) (middlewares : Option (List EpMW)) :
    Except RuntimeError RequestContext :=
  match epGo ctx (middlewares.getD []) with
  | .ok c => .ok c
  | .error _ => .error (.routerError .BAD_REQUEST handlerThrewMsg)

/-- The dotted field path of one validation issue: issue.path joined
with periods. -/
def joinPath (path : List String) : String :=
  String.intercalate (".") path

/-- formatZodError of context.ts: fold the issue list into a field-error
map keyed by dotted path (object spread plus key assignment, so a later
issue for the same path overwrites the earlier entry in place). -/
def formatZodError (issues : List ZodIssue) : List (String × FieldErr) :=
  issues.foldl (fun previous issue =>
    mapSet previous (joinPath issue.path) { code := issue.code, message := issue.message }) []

/-- Encoding of a raw string map as the JSON object the validator
receives (route params, and Object.fromEntries of the search params). -/
def encodeStrMap (m : List (String × String)) : JsonV :=
  .obj (m.map (fun p => (p.1, .str p.2)))

/-- Object.fromEntries over the search parameter entries: a later entry
with the same key overwrites the earlier one. -/
def fromEntries (entries : List (String × String)) : List (String × String) :=
  entries.foldl (fun acc p => mapSet acc p.1 p.2) []

/-- getRouteParams of context.ts: with a params schema, validate the raw
map and return the parsed data, throwing InvalidZodSchemaError with the
formatted issues on failure; without a schema return the raw map. -/
def getRouteParams (params : List (String × String)) (config : EndpointConfig) :
    Except RuntimeError JsonV :=
  match config.paramsSchema with
  | some schema =>
    match schema.safeParse (encodeStrMap params) with
    | .success d => .ok d
    | .failure issues => .error (.zodError .UNPROCESSABLE_ENTITY (formatZodError issues))
  | none => .ok (encodeStrMap params)

/-- getSearchParams of context.ts: with a searchParams schema, validate
the plain object built from the query entries; without a schema return a
URLSearchParams copy of the live entries. -/
def getSearchParams (url : URLVal) (config : EndpointConfig) :
    Except RuntimeError SearchParamsVal :=
  match config.searchSchema with
  | some schema =>
    match schema.safeParse (encodeStrMap (fromEntries url.searchParams)) with
    | .success d => .ok (.parsed d)
    | .failure issues => .error (.zodError .UNPROCESSABLE_ENTITY (formatZodError issues))
  | none => .ok (.raw url.searchParams)

/-- The try-guarded tail of getBody: the form, text, byte and blob
decoder branches selected by createContentTypeRegex, and the final null
for an unrecognized content type.  The error case models any throw by a
platform decoder inside the try block. -/
def getBodyTyped (request : Request) (contentType : String) : Except Unit BodyVal :=
  if ctMatch ["application/x-www-form-urlencoded", "multipart/form-data"] contentType then
    match request.stream.form with
    | some d => .ok (.form d)
    | none => .error ()
  else if ctMatch ["text/", "application/xml"] contentType then
    match request.stream.text with
    | some s => .ok (.text s)
    | none => .error ()
  else if ctMatch ["application/octet-stream"] contentType then
    match request.stream.bytes with
    | some b => .ok (.bytes b)
    | none => .error ()
  else if ctMatch ["image/", "video/", "audio/", "application/pdf"] contentType then
    match request.stream.blob with
    | some b => .ok (.blob b)
    | none => .error ()
  else
    .ok .null

/-- getBody of context.ts.  Non-body methods yield null.  When the
content type includes application/json, or a body schema is configured
(schema presence forces JSON decoding), the clone is JSON-decoded — note
that this call sits outside the try block, so a JSON decode throw
propagates as the raw platform error — and then validated when a schema
is present.  The remaining typed branches run inside a try whose catch
throws the unprocessable-body RouterError. -/
def getBody (request : Request) (config : EndpointConfig) :
    Except RuntimeError BodyVal :=
  if isSupportedBodyMethod request.method = false then
    .ok .null
  else
    let contentType := (hget request.headers ("Content-Type")).getD ""
    if strIncludes contentType ("application/json") || config.bodySchema.isSome then
      match request.stream.json with
      | none => .error (.jsError "Unexpected token in JSON at position 0")
      | some json =>
        match config.bodySchema with
        | some schema =>
          match schema.safeParse json with
          | .success d => .ok (.json d)
          | .failure issues => .error (.zodError .UNPROCESSABLE_ENTITY (formatZodError issues))
        | none => .ok (.json json)
    else
      match getBodyTyped request contentType with
      | .ok v => .ok v
      | .error _ => .error (.routerError .UNPROCESSABLE_ENTITY bodyUnprocMsg)

/-- RouterConfig of types.ts: optional base path, global middleware list
(the use field), error hook and initial shared context.  The hook may
itself throw, modelled by a none result. -/
structure RouterConfig where
  basePath : Option String := none
  use : Option (List GMEntry) := none
  onErrorHook : Option (RuntimeError → Request → Option Response) := none
  context : Option JsonV := none

/-- The fixed 500 body used for unclassified errors. -/
def internalErrorResponse : Response :=
  { status := 500, statusText := statusTextOf .INTERNAL_SERVER_ERROR,
    body := .obj [("message", .str "Internal Server Error")] }

/-- The fixed 500 body returned when the configured error hook throws. -/
def criticalFailureResponse : Response :=
  { status := 500, statusText := statusTextOf .INTERNAL_SERVER_ERROR,
    body := .obj [("message", .str "A critical failure occurred during error handling")] }

/-- The 422 validation body built from an InvalidZodSchemaError. -/
def validationResponse (type : StatusCode) (errors : List (String × FieldErr)) : Response :=
  { status := statusCodeOf type, statusText := statusTextOf type,
    body := .obj [("message", .str "Invalid request data"),
                  ("error", .str "validation_error"),
                  ("details", .obj (errors.map (fun p =>
                    (p.1, .obj [("code", .str p.2.code), ("message", .str p.2.message)]))))] }

/-- The message-only body built from a RouterError. -/
def routerErrorResponse (type : StatusCode) (message : String) : Response :=
  { status := statusCodeOf type, statusText := statusTextOf type,
    body := .obj [("message", .str message)] }

/-- onError of on-error.ts: a configured hook takes priority and its own
throw yields the fixed critical-failure 500; otherwise an
InvalidZodSchemaError maps to the validation body at its status, a
RouterError to its message and status, and anything else to the plain
500 Internal Server Error body. -/
def onError (error : RuntimeError) (request : Request) (config : RouterConfig) : Response :=
  match config.onErrorHook with
  | some hook =>
    match hook error request with
    | some response => response
    | none => criticalFailureResponse
  | none =>
    match error with
    | .zodError type errors => validationResponse type errors
    | .routerError type message => routerErrorResponse type message
    | _ => internalErrorResponse

/-- The tail of handleRequest in router.ts after the global middleware
chain produced a context (rather than a terminal response).  The source
reads only globalRequestContext.request from here on; the shared context
slot handed to the endpoint pipeline is rebuilt from config.context.
Splitting the straight-line body here mirrors the single join point
after the instanceof Response check. -/
def fromGlobalContext (method : HTTPMethod) (gctx : GlobalMiddlewareContext)
    (config : RouterConfig) (router : TrieRouter) : Except RuntimeError Response :=
  let url := gctx.request.url
  let pathnameWithBase := url.pathname
  if gctx.request.method ≠ methodStr method then
    .error (.routerError .METHOD_NOT_ALLOWED (methodNotAllowedMsg gctx.request.method))
  else
    match TrieRouter.matchRoute router method pathnameWithBase with
    | .error e => .error e
    | .ok none => .error (.routerError .NOT_FOUND (noRouteMsg pathnameWithBase))
    | .ok (some (endpoint, params)) =>
      match getRouteParams params endpoint.config with
      | .error e => .error e
      | .ok dynamicParams =>
        match getBody gctx.request endpoint.config with
        | .error e => .error e
        | .ok body =>
          match getSearchParams gctx.request.url endpoint.config with
          | .error e => .error e
          | .ok searchParams =>
            let context : RequestContext :=
              { params := dynamicParams, searchParams := searchParams,
                headers := gctx.request.headers, body := body,
                request := gctx.request, url := url,
                method := gctx.request.method, route := endpoint.route,
                context := config.context.getD (.obj []) }
            match executeMiddlewares context endpoint.config.use with
            | .error e => .error e
            | .ok ctx2 => endpoint.handler ctx2

/-- The try block of handleRequest in router.ts: reject unsupported
method strings, run the global chain (a terminal Response returns
as-is), then hand over to the post-chain tail. -/
def handleRequestE (method : HTTPMethod) (request : Request)
    (config : RouterConfig) (router : TrieRouter) : Except RuntimeError Response :=
  if isSupportedMethod request.method = false then
    .error (.routerError .METHOD_NOT_ALLOWED (methodNotSupportedMsg request.method))
  else
    match executeGlobalMiddlewares { request := request, context := config.context.getD (.obj []) } config.use with
    | .error e => .error e
    | .ok (.inl response) => .ok response
    | .ok (.inr gctx) => fromGlobalContext method gctx config router

/-- handleRequest of router.ts: the try/catch boundary.  Every error
thrown anywhere inside the try block is caught here, once, and
translated by onError; the per-method entry point therefore always
returns a Response. -/
def handleRequest (method : HTTPMethod) (request : Request)
    (config : RouterConfig) (router : TrieRouter) : Response :=
  match handleRequestE method request config router with
  | .ok response => response
  | .error e => onError e request config

/-- The registration loop of createRouter: prefix every route with the
configured base path, then add it to the TrieRouter. -/
def buildRouter (endpoints : List RouteEndpoint) (config : RouterConfig) :
    Except RuntimeError TrieRouter :=
  endpoints.foldlM (fun r e =>
    TrieRouter.add r { e with route := (config.basePath.getD "") ++ e.route }) {}

/-- Observation helper: follow a route pattern through the trie along
the same branching insertPath uses (parameter child for colon segments,
static child otherwise), returning the terminal node when present. -/
def findPattern {ε : Type} (node : Trie ε) (segments : List String) : Option (Trie ε) :=
  match segments with
  | [] => some node
  | seg :: rest =>
    if startsWithColon seg then
      match node.param with
      | none => none
      | some (_, pnode) => findPattern pnode rest
    else
      match mapGet node.statics seg with
      | none => none
      | some child => findPattern child rest

/-- Observation helper: the endpoint a TrieRouter currently stores for a
method at a route pattern — in the static fast-path map for a static
pattern, at the trie terminal for a dynamic one. -/
def observeReg (r : TrieRouter) (m : HTTPMethod) (route : String) : Option RouteEndpoint :=
  if strHasColon route then
    (findPattern r.root (segs route)).bind (fun node => mapGet node.endpoints m)
  else
    mapGet r.statics (staticKey m route)

/-- Observation helper: run an initial portion of a global middleware
list, reporting the running context value when every entry is a
function that produces a successor context (no response, no throw). -/
def runPreGMs (context : GMCtxVal) (middlewares : List GMEntry) : Option GMCtxVal :=
  match middlewares with
  | [] => some context
  | .notFn :: _ => none
  | .fn f :: rest =>
    match f context with
    | .next c2 => runPreGMs c2 rest
    | _ => none

/-- Sample handler used by the concrete routers in counterexamples. -/
def sampleHandler (status : Nat) : RequestContext → Except RuntimeError Response :=
  fun _ => .ok { status := status, statusText := "OK", body := .null }

/-- Handler that reflects the shared context slot it observes into the
response body, used to check which context value reaches the handler. -/
def contextEchoHandler : RequestContext → Except RuntimeError Response :=
  fun ctx => .ok { status := 200, statusText := "OK", body := ctx.context }

/-- A minimal URL for sample requests. -/
def sampleUrl : URLVal := { pathname := "/", searchParams := [] }

/-- A minimal GET request. -/
def sampleReq : Request := { method := "GET", url := sampleUrl, headers := [] }

/-- A minimal request context for exercising the endpoint pipeline. -/
def sampleCtx : RequestContext :=
  { params := .obj [], searchParams := .raw [], headers := [], body := .null,
    request := sampleReq, url := sampleUrl, method := "GET", route := "/",
    context := .obj [] }

/-- A distinguishable response for middleware short-circuit checks. -/
def sampleResp : Response := { status := 201, statusText := "CREATED", body := .null }

/-- First registration of GET /a. -/
def epA1 : RouteEndpoint := { method := .one .GET, route := "/a", handler := sampleHandler 200 }

/-- Second registration of GET /a, distinguishable from the first by its
configuration. -/
def epA2 : RouteEndpoint :=
  { method := .one .GET, route := "/a", handler := sampleHandler 201, config := { use := some [] } }

/-- First registration of the dynamic GET /u/:id. -/
def epD1 : RouteEndpoint := { method := .one .GET, route := "/u/:id", handler := sampleHandler 200 }

/-- Second registration of the dynamic GET /u/:id. -/
def epD2 : RouteEndpoint :=
  { method := .one .GET, route := "/u/:id", handler := sampleHandler 201, config := { use := some [] } }

/-- Endpoint POST /b, so that POST is a declared method. -/
def epPostB : RouteEndpoint := { method := .one .POST, route := "/b", handler := sampleHandler 201 }

/-- Router declaring GET /a and POST /b. -/
def twoRouter : TrieRouter := (buildRouter [epA1, epPostB] {}).toOption.getD {}

/-- A POST request to the GET-only path /a. -/
def reqPostA : Request := { method := "POST", url := { pathname := "/a", searchParams := [] }, headers := [] }

/-- A POST request declaring a JSON content type whose payload is not
valid JSON (the json reader throws, modelled by the none field). -/
def badJsonRequest : Request :=
  { method := "POST", url := { pathname := "/x", searchParams := [] },
    headers := [("Content-Type", "application/json")], stream := {} }

/-- A POST request declaring a multipart content type whose payload the
formData reader rejects. -/
def badFormRequest : Request :=
  { method := "POST", url := { pathname := "/x", searchParams := [] },
    headers := [("Content-Type", "multipart/form-data")], stream := {} }

/-- Endpoint POST /x without schemas. -/
def epPostX : RouteEndpoint := { method := .one .POST, route := "/x", handler := sampleHandler 200 }

/-- Router declaring POST /x. -/
def postRouter : TrieRouter := (buildRouter [epPostX] {}).toOption.getD {}

/-- Dynamic endpoint GET /users/:id. -/
def epUserId : RouteEndpoint := { method := .one .GET, route := "/users/:id", handler := sampleHandler 200 }

/-- Router declaring GET /users/:id. -/
def dynRouter : TrieRouter := (buildRouter [epUserId] {}).toOption.getD {}

/-- Request whose captured segment carries a malformed percent escape. -/
def reqPctZZ : Request :=
  { method := "GET", url := { pathname := "/users/%zz", searchParams := [] }, headers := [] }

/-- Request whose captured segment is a bare percent sign. -/
def reqPctBare : Request :=
  { method := "GET", url := { pathname := "/users/%", searchParams := [] }, headers := [] }

/-- Endpoint GET /e whose handler echoes the shared context slot. -/
def epEcho : RouteEndpoint := { method := .one .GET, route := "/e", handler := contextEchoHandler }

/-- Router declaring the echo endpoint. -/
def echoRouter : TrieRouter := (buildRouter [epEcho] {}).toOption.getD {}

/-- A GET request to the echo endpoint. -/
def reqEcho : Request := { method := "GET", url := { pathname := "/e", searchParams := [] }, headers := [] }

/-- A global middleware that replaces the shared context slot with a
marker value while keeping the request unchanged. -/
def evilMW : GMEntry :=
  .fn (fun _ => .next (.valid { request := reqEcho, context := .str ("EVIL") }))

/-- A legacy endpoint GET /a for exercising the legacy insert. -/
def legacyE : LegacyEndpoint := { method := .GET, route := "/a", handler := sampleHandler 200 }

theorem mapGet_mapSet {κ α : Type} [DecidableEq κ] (m : List (κ × α)) (k k2 : κ) (v : α) :
    mapGet (mapSet m k v) k2 = if k = k2 then some v else mapGet m k2 := by
  induction m with
  | nil => simp [mapSet, mapGet]
  | cons p rest ih =>
    obtain ⟨k3, w⟩ := p
    simp only [mapSet]
    by_cases h1 : k3 = k
    · subst h1
      by_cases h2 : k3 = k2 <;> simp [mapGet, h2]
    · by_cases h2 : k3 = k2
      · subst h2
        have h1s : ¬ k = k3 := fun hh => h1 hh.symm
        simp [mapGet, h1, h1s]
      · simp [mapGet, h1, h2, ih]

theorem gmGo_runPre (pre : List GMEntry) :
    ∀ (c c2 : GMCtxVal) (rest : List GMEntry), runPreGMs c pre = some c2 →
      gmGo c (pre ++ rest) = gmGo c2 rest := by
  induction pre with
  | nil =>
    intro c c2 rest h
    simp [runPreGMs] at h
    subst h
    simp
  | cons mw tl ih =>
    intro c c2 rest h
    cases mw with
    | notFn => simp [runPreGMs] at h
    | fn f =>
      simp only [runPreGMs] at h
      cases hf : f c with
      | next c3 =>
        rw [hf] at h
        simpa [gmGo, hf] using ih c3 c2 rest h
      | response r => rw [hf] at h; simp at h
      | raise e => rw [hf] at h; simp at h

/-- Claim C4: during dynamic matching, at a node holding both a static
child for the current segment and a parameter child, TrieRouter.match
descends into the static child; the parameter child is used only when no
literal child matches the segment (and then captures its decoding). -/
theorem trie_match_static_priority :
    ∀ (node : Trie RouteEndpoint) (seg : String) (rest : List String)
      (params : List (String × String)),
      (∀ child, mapGet node.statics seg = some child →
        matchWalk node (seg :: rest) params = matchWalk child rest params) ∧
      (mapGet node.statics seg = none →
        ∀ name pnode v, node.param = some (name, pnode) →
          decodeURIComponent seg = some v →
          matchWalk node (seg :: rest) params = matchWalk pnode rest (mapSet params name v)) := by
  intro node seg rest params
  constructor
  · intro child h
    simp [matchWalk, h]
  · intro h name pnode v hp hd
    simp [matchWalk, h, hp, hd]

theorem trie_match_static_priority_witness :
    matchWalk (.mk [("a", createNode)] (some ("id", createNode)) []) [("a")] [] =
      matchWalk createNode [] [] ∧
    matchWalk (.mk [] (some ("id", createNode)) []) [("x")] [] =
      matchWalk createNode [] (mapSet [] ("id") ("x")) :=
  ⟨(trie_match_static_priority (.mk [("a", createNode)] (some ("id", createNode)) [])
      ("a") [] []).1 createNode rfl,
   (trie_match_static_priority (.mk [] (some ("id", createNode)) [])
      ("x") [] []).2 rfl ("id") createNode ("x") rfl rfl⟩

/-- Claim C6: whatever error the per-endpoint middleware loop raises — a
validation error thrown by a middleware, any other exception, or the
non-function entry check — executeMiddlewares re-raises exactly the one
generic BAD_REQUEST handler-threw RouterError, discarding the original
error. -/
theorem executeMiddlewares_collapses_errors :
    ∀ (ctx : RequestContext) (mws : List EpMW) (e : RuntimeError),
      epGo ctx mws = .error e →
      executeMiddlewares ctx (some mws) = .error (.routerError .BAD_REQUEST handlerThrewMsg) := by
  intro ctx mws e h
  simp [executeMiddlewares, h]

theorem executeMiddlewares_collapses_errors_witness :
    executeMiddlewares sampleCtx (some [EpMW.notFn]) =
      .error (.routerError .BAD_REQUEST handlerThrewMsg) :=
  executeMiddlewares_collapses_errors sampleCtx [EpMW.notFn]
    (.routerError .BAD_REQUEST mwFnMsg) rfl

/-- Claim C5: when some configured global middleware returns a terminal
Response, handleRequest returns that response as-is.  The conclusion
holds for every router, so route matching, context extraction,
per-endpoint middleware and the handler (all of which live in the router
argument) can have no effect on the outcome, and the entries after the
responding middleware never run (the conclusion does not depend on
them). -/
theorem global_middleware_short_circuit :
    ∀ (method : HTTPMethod) (request : Request) (config : RouterConfig)
      (pre post : List GMEntry) (f : GMCtxVal → GMOutcome) (v : GMCtxVal) (r : Response),
      isSupportedMethod request.method = true →
      config.use = some (pre ++ .fn f :: post) →
      runPreGMs (.valid { request := request, context := config.context.getD (.obj []) }) pre = some v →
      f v = .response r →
      ∀ router : TrieRouter, handleRequest method request config router = r := by
  intro method request config pre post f v r hsup huse hpre hf router
  simp only [handleRequest, handleRequestE, hsup, Bool.true_eq_false, if_false,
    executeGlobalMiddlewares, huse]
  rw [gmGo_runPre pre _ v _ hpre]
  simp [gmGo, hf]

theorem global_middleware_short_circuit_witness :
    handleRequest .GET sampleReq { use := some [.fn (fun _ => .response sampleResp)] } {} = sampleResp :=
  global_middleware_short_circuit .GET sampleReq
    { use := some [.fn (fun _ => .response sampleResp)] } [] []
    (fun _ => .response sampleResp)
    (.valid { request := sampleReq, context := (.obj []) }) sampleResp
    rfl rfl rfl rfl {}

/-- Claim C7: the per-method entry point handleRequest is a total
function that catches every error of the processing pipeline exactly
once, at its outer boundary, translating it through onError: validation
errors become the 422 details body, router errors their own status and
message body, unclassified platform or handler errors the fixed 500
body, and a throwing onError hook yields the fixed critical-failure 500
response. -/
theorem orchestrator_catches_once :
    (∀ (method : HTTPMethod) (request : Request) (config : RouterConfig) (router : TrieRouter),
       handleRequest method request config router =
         match handleRequestE method request config router with
         | .ok r => r
         | .error e => onError e request config) ∧
    (∀ (type : StatusCode) (errors : List (String × FieldErr)) (request : Request) (config : RouterConfig),
       config.onErrorHook = none →
       onError (.zodError type errors) request config = validationResponse type errors) ∧
    (∀ (type : StatusCode) (message : String) (request : Request) (config : RouterConfig),
       config.onErrorHook = none →
       onError (.routerError type message) request config = routerErrorResponse type message) ∧
    (∀ (request : Request) (config : RouterConfig) (msg : String),
       config.onErrorHook = none →
       onError .uriError request config = internalErrorResponse ∧
       onError (.jsError msg) request config = internalErrorResponse) ∧
    (∀ (hook : RuntimeError → Request → Option Response) (e : RuntimeError)
       (request : Request) (config : RouterConfig),
       config.onErrorHook = some hook → hook e request = none →
       onError e request config = criticalFailureResponse) := by
  refine ⟨fun _ _ _ _ => rfl, ?_, ?_, ?_, ?_⟩ <;> intros <;> simp [onError, *]

theorem orchestrator_catches_once_witness :
    handleRequest .GET sampleReq {} {} =
      (match handleRequestE .GET sampleReq {} {} with
       | .ok r => r
       | .error e => onError e sampleReq {}) ∧
    onError (.zodError .UNPROCESSABLE_ENTITY []) sampleReq {} =
      validationResponse .UNPROCESSABLE_ENTITY [] ∧
    onError (.routerError .NOT_FOUND (noRouteMsg ("/"))) sampleReq {} =
      routerErrorResponse .NOT_FOUND (noRouteMsg ("/")) ∧
    onError .uriError sampleReq {} = internalErrorResponse ∧
    onError (.jsError ("boom")) sampleReq {} = internalErrorResponse ∧
    onError .uriError sampleReq { onErrorHook := some (fun _ _ => none) } = criticalFailureResponse :=
  ⟨orchestrator_catches_once.1 .GET sampleReq {} {},
   orchestrator_catches_once.2.1 .UNPROCESSABLE_ENTITY [] sampleReq {} rfl,
   orchestrator_catches_once.2.2.1 .NOT_FOUND (noRouteMsg ("/")) sampleReq {} rfl,
   (orchestrator_catches_once.2.2.2.1 sampleReq {} ("boom") rfl).1,
   (orchestrator_catches_once.2.2.2.1 sampleReq {} ("boom") rfl).2,
   orchestrator_catches_once.2.2.2.2 (fun _ _ => none) .uriError sampleReq
     { onErrorHook := some (fun _ _ => none) } rfl rfl⟩

/-- Claim C2 (amended): the 405 method-not-allowed response with message
naming the request method arises from the orchestrator method check,
when the (post-middleware) request method differs from the method the
invoked handler is bound to; a request dispatched to the handler of its
own method, for a path whose registrations all belong to other methods,
falls through TrieRouter.match with a null result and yields the 404
not-found response instead. -/
theorem method_mismatch_405 :
    ∀ (method : HTTPMethod) (request : Request) (config : RouterConfig) (router : TrieRouter),
      config.use = none → config.onErrorHook = none →
      isSupportedMethod request.method = true →
      (request.method ≠ methodStr method →
        handleRequest method request config router =
          routerErrorResponse .METHOD_NOT_ALLOWED (methodNotAllowedMsg request.method)) ∧
      (request.method = methodStr method →
        TrieRouter.matchRoute router method request.url.pathname = .ok none →
        handleRequest method request config router =
          routerErrorResponse .NOT_FOUND (noRouteMsg request.url.pathname)) := by
  intro method request config router huse hhook hsup
  constructor
  · intro hne
    simp [handleRequest, handleRequestE, hsup, executeGlobalMiddlewares, huse,
      fromGlobalContext, hne, onError, hhook]
  · intro heq hmatch
    rw [heq] at hsup
    simp [handleRequest, handleRequestE, hsup, executeGlobalMiddlewares, huse,
      fromGlobalContext, heq, hmatch, onError, hhook]

theorem method_mismatch_405_counterexample :
    isSupportedMethod ("POST") = true ∧
    observeReg twoRouter .GET ("/a") = some epA1 ∧
    observeReg twoRouter .POST ("/b") = some epPostB ∧
    observeReg twoRouter .POST ("/a") = none ∧
    handleRequest .POST reqPostA {} twoRouter =
      routerErrorResponse .NOT_FOUND (noRouteMsg ("/a")) ∧
    routerErrorResponse .NOT_FOUND (noRouteMsg ("/a")) ≠
      routerErrorResponse .METHOD_NOT_ALLOWED (methodNotAllowedMsg ("POST")) := by
  refine ⟨rfl, rfl, rfl, rfl, rfl, ?_⟩
  simp [routerErrorResponse, statusCodeOf]

theorem method_mismatch_405_witness :
    handleRequest .GET reqPostA {} twoRouter =
      routerErrorResponse .METHOD_NOT_ALLOWED (methodNotAllowedMsg ("POST")) :=
  (method_mismatch_405 .GET reqPostA {} twoRouter rfl rfl rfl).1 (by decide)

/-- Claim C3 (amended): the distinct unprocessable-body RouterError (422
with the content-type-mismatch message) is raised exactly by the
try-guarded typed decoder branches of getBody (form, text, bytes,
blob); it is a different error from a schema-validation failure.  A
throw of the JSON decode step — malformed JSON under a JSON content
type, or a configured body schema forcing JSON decoding — happens
outside the try block and propagates as the raw platform error, which
the default onError turns into the plain 500 response rather than the
422. -/
theorem body_decode_error_taxonomy :
    (∀ (request : Request) (config : EndpointConfig),
      isSupportedBodyMethod request.method = true →
      strIncludes ((hget request.headers ("Content-Type")).getD "") ("application/json") = false →
      config.bodySchema = none →
      getBodyTyped request ((hget request.headers ("Content-Type")).getD "") = .error () →
      getBody request config = .error (.routerError .UNPROCESSABLE_ENTITY bodyUnprocMsg)) ∧
    (∀ (request : Request) (config : EndpointConfig),
      isSupportedBodyMethod request.method = true →
      (strIncludes ((hget request.headers ("Content-Type")).getD "") ("application/json") ||
        config.bodySchema.isSome) = true →
      request.stream.json = none →
      getBody request config = .error (.jsError ("Unexpected token in JSON at position 0"))) ∧
    (∀ (type : StatusCode) (errors : List (String × FieldErr)),
      (RuntimeError.routerError .UNPROCESSABLE_ENTITY bodyUnprocMsg) ≠ .zodError type errors) := by
  refine ⟨?_, ?_, ?_⟩
  · intro request config hm hct hsch hdec
    simp [getBody, hm, hct, hsch, hdec]
  · intro request config hm hcond hjson
    simp [getBody, hm, hcond, hjson]
  · intro type errors
    simp

theorem body_decode_error_taxonomy_counterexample :
    getBody badJsonRequest {} = .error (.jsError ("Unexpected token in JSON at position 0")) ∧
    (RuntimeError.jsError ("Unexpected token in JSON at position 0")) ≠
      (.routerError .UNPROCESSABLE_ENTITY bodyUnprocMsg) ∧
    isRouterError (.jsError ("Unexpected token in JSON at position 0")) = false ∧
    handleRequest .POST badJsonRequest {} postRouter = internalErrorResponse ∧
    internalErrorResponse.status = 500 ∧
    internalErrorResponse.status ≠ statusCodeOf .UNPROCESSABLE_ENTITY := by
  refine ⟨rfl, ?_, rfl, rfl, rfl, ?_⟩ <;> simp [internalErrorResponse, statusCodeOf]

theorem body_decode_error_taxonomy_witness :
    getBody badFormRequest {} = .error (.routerError .UNPROCESSABLE_ENTITY bodyUnprocMsg) ∧
    getBody badJsonRequest {} = .error (.jsError ("Unexpected token in JSON at position 0")) :=
  ⟨body_decode_error_taxonomy.1 badFormRequest {} rfl rfl rfl rfl,
   body_decode_error_taxonomy.2.1 badJsonRequest {} rfl rfl rfl⟩

/-- Claim C9: when the segment captured by a parameter child carries an
invalid percent escape (a bare percent sign, or a percent sign not
followed by two hexadecimal digits), decodeURIComponent throws URIError
inside TrieRouter.match, so the match surfaces an error rather than a
null result, and the router answers 500 Internal Server Error for such
paths instead of 404. -/
theorem pct_decode_throws_500 :
    decodeURIComponent ("%zz") = none ∧
    decodeURIComponent ("%") = none ∧
    TrieRouter.matchRoute dynRouter .GET ("/users/%zz") = .error .uriError ∧
    TrieRouter.matchRoute dynRouter .GET ("/users/%") = .error .uriError ∧
    handleRequest .GET reqPctZZ {} dynRouter = internalErrorResponse ∧
    handleRequest .GET reqPctBare {} dynRouter = internalErrorResponse ∧
    internalErrorResponse.status = 500 ∧
    internalErrorResponse ≠ routerErrorResponse .NOT_FOUND (noRouteMsg ("/users/%zz")) := by
  refine ⟨rfl, rfl, rfl, rfl, rfl, rfl, rfl, ?_⟩
  simp [internalErrorResponse, routerErrorResponse, statusCodeOf]

theorem fromGlobalContext_congr :
    ∀ (method : HTTPMethod) (g1 g2 : GlobalMiddlewareContext) (c1 c2 : RouterConfig)
      (router : TrieRouter),
      g1.request = g2.request → c1.context = c2.context →
      fromGlobalContext method g1 c1 router = fromGlobalContext method g2 c2 router := by
  intro method g1 g2 c1 c2 router hreq hctx
  cases g1
  cases g2
  cases c1
  cases c2
  simp only at hreq hctx
  subst hreq
  subst hctx
  rfl

/-- Claim C8: the shared context slot of the request context handed to
per-endpoint middleware and the handler is rebuilt from the router
configuration (config.context, or a fresh empty object when unset) and
is not taken from the global pipeline output: a handler that echoes the
slot observes exactly the configured value whatever context the global
chain produced, and two global chains whose outputs agree on the request
(but may differ arbitrarily in the context slot) produce identical
responses. -/
theorem handler_context_from_config :
    (∀ (method : HTTPMethod) (gctx : GlobalMiddlewareContext) (config : RouterConfig)
       (router : TrieRouter) (endpoint : RouteEndpoint) (params : List (String × String))
       (dp : JsonV) (body : BodyVal) (sp : SearchParamsVal),
       gctx.request.method = methodStr method →
       TrieRouter.matchRoute router method gctx.request.url.pathname = .ok (some (endpoint, params)) →
       endpoint.config.use = none →
       endpoint.handler = contextEchoHandler →
       getRouteParams params endpoint.config = .ok dp →
       getBody gctx.request endpoint.config = .ok body →
       getSearchParams gctx.request.url endpoint.config = .ok sp →
       fromGlobalContext method gctx config router =
         .ok { status := 200, statusText := "OK", body := config.context.getD (.obj []) }) ∧
    (∀ (method : HTTPMethod) (request : Request) (config : RouterConfig)
       (use1 use2 : Option (List GMEntry)) (g1 g2 : GlobalMiddlewareContext) (router : TrieRouter),
       executeGlobalMiddlewares { request := request, context := config.context.getD (.obj []) } use1 =
         .ok (.inr g1) →
       executeGlobalMiddlewares { request := request, context := config.context.getD (.obj []) } use2 =
         .ok (.inr g2) →
       g1.request = g2.request →
       handleRequest method request { config with use := use1 } router =
         handleRequest method request { config with use := use2 } router) := by
  constructor
  · intro method gctx config router endpoint params dp body sp hmeth hmatch huse hhand hdp hbody hsp
    simp [fromGlobalContext, hmeth, hmatch, hdp, hbody, hsp, huse, hhand,
      executeMiddlewares, epGo, contextEchoHandler]
  · intro method request config use1 use2 g1 g2 router h1 h2 hreq
    cases config with
    | mk bp u hk c =>
      simp only at h1 h2
      simp only [handleRequest, handleRequestE]
      by_cases hs : isSupportedMethod request.method = false
      · simp only [hs]
        rfl
      · have hs2 : isSupportedMethod request.method = true := by
          cases h : isSupportedMethod request.method
          · exact absurd h hs
          · rfl
        rw [h1, h2]
        simp only [hs2, Bool.true_eq_false, if_false]
        have hf := fromGlobalContext_congr method g1 g2
          { basePath := bp, use := use1, onErrorHook := hk, context := c }
          { basePath := bp, use := use2, onErrorHook := hk, context := c } router hreq rfl
        rw [hf]
        cases hX : fromGlobalContext method g2
            { basePath := bp, use := use2, onErrorHook := hk, context := c } router with
        | ok r => simp only [hX]
        | error e => simp only [hX]; rfl

theorem handler_context_from_config_witness :
    fromGlobalContext .GET { request := reqEcho, context := .str ("EVIL") }
      { context := some (.str ("app")) } echoRouter =
      .ok { status := 200, statusText := "OK", body := .str ("app") } ∧
    handleRequest .GET reqEcho { context := some (.str ("app")), use := none } echoRouter =
      handleRequest .GET reqEcho { context := some (.str ("app")), use := some [evilMW] } echoRouter :=
  ⟨handler_context_from_config.1 .GET { request := reqEcho, context := .str ("EVIL") }
      { context := some (.str ("app")) } echoRouter epEcho [] (.obj []) .null (.raw [])
      rfl rfl rfl rfl rfl rfl rfl,
   handler_context_from_config.2 .GET reqEcho { context := some (.str ("app")) }
      none (some [evilMW])
      { request := reqEcho, context := .str ("app") }
      { request := reqEcho, context := .str ("EVIL") } echoRouter rfl rfl rfl⟩

theorem strDataAppend (a b : String) : (a ++ b).data = a.data ++ b.data := rfl

theorem splitSlash_ne_nil : ∀ l : List Char, splitSlash l ≠ [] := by
  intro l
  cases l with
  | nil => simp [splitSlash]
  | cons c cs =>
    simp only [splitSlash]
    split
    · simp
    · split
      · simp
      · simp

theorem splitSlash_append : ∀ (a b : List Char),
    splitSlash (a ++ '/' :: b) = splitSlash a ++ splitSlash b := by
  intro a b
  induction a with
  | nil => simp [splitSlash]
  | cons c cs ih =>
    by_cases h : c = '/'
    · subst h
      simp [splitSlash, ih]
    · simp only [List.cons_append, splitSlash, h, if_false, List.append_eq]
      rw [ih]
      cases hs : splitSlash cs with
      | nil => exact absurd hs (splitSlash_ne_nil cs)
      | cons s rest => simp

theorem segs_append_slash (p : String) : segs (p ++ ("/")) = segs p := by
  unfold segs
  rw [strDataAppend]
  have h1 : ("/" : String).data = ['/'] := rfl
  rw [h1]
  have h2 : p.data ++ ['/'] = p.data ++ '/' :: [] := rfl
  rw [h2, splitSlash_append]
  simp [splitSlash, List.filter_append]

theorem segs_double_slash (a b : String) :
    segs (a ++ ("//") ++ b) = segs (a ++ ("/") ++ b) := by
  unfold segs
  rw [strDataAppend, strDataAppend, strDataAppend, strDataAppend]
  have h1 : ("//" : String).data = ['/', '/'] := rfl
  have h2 : ("/" : String).data = ['/'] := rfl
  rw [h1, h2]
  have h3 : (a.data ++ ['/', '/']) ++ b.data = a.data ++ '/' :: ('/' :: b.data) := by
    simp [List.append_assoc]
  have h4 : (a.data ++ ['/']) ++ b.data = a.data ++ '/' :: b.data := by
    simp [List.append_assoc]
  rw [h3, h4, splitSlash_append, splitSlash_append]
  have h5 : splitSlash ('/' :: b.data) = [] :: splitSlash b.data := by
    simp [splitSlash]
  rw [h5]
  simp [List.filter_append]

/-- Claim C10: a fully static route is stored only in the fast-path map
and never enters the trie (adding it leaves the root untouched), so it
is matched only through the exact method-space-path key: in a router
whose trie is empty, any path missing from the static map yields a null
match, and the key of a path with a trailing slash differs from the key
of the registered pattern.  Dynamic matching, by contrast, works on the
nonempty path segments, so the trie walk is invariant under a trailing
slash and under doubling a slash. -/
theorem static_routes_exact_match_only :
    (∀ (r : TrieRouter) (e : RouteEndpoint) (st2 : TrieRouter),
      strHasColon e.route = false → TrieRouter.add r e = .ok st2 → st2.root = r.root) ∧
    (∀ (r : TrieRouter) (m : HTTPMethod) (p : String),
      r.root = createNode → mapGet r.statics (staticKey m p) = none →
      TrieRouter.matchRoute r m p = .ok none) ∧
    (∀ (m : HTTPMethod) (p : String), staticKey m (p ++ ("/")) ≠ staticKey m p) ∧
    (∀ p : String, segs (p ++ ("/")) = segs p) ∧
    (∀ a b : String, segs (a ++ ("//") ++ b) = segs (a ++ ("/") ++ b)) ∧
    (∀ (root : Trie RouteEndpoint) (m : HTTPMethod) (p : String),
      dynamicMatch root m (p ++ ("/")) = dynamicMatch root m p) ∧
    (∀ (root : Trie RouteEndpoint) (m : HTTPMethod) (a b : String),
      dynamicMatch root m (a ++ ("//") ++ b) = dynamicMatch root m (a ++ ("/") ++ b)) := by
  refine ⟨?_, ?_, ?_, segs_append_slash, segs_double_slash, ?_, ?_⟩
  · intro r e st2 hcolon hadd
    simp only [TrieRouter.add, hcolon, Bool.false_eq_true, if_false, Except.ok.injEq] at hadd
    rw [← hadd]
  · intro r m p hroot hmiss
    simp only [TrieRouter.matchRoute, hmiss, dynamicMatch, hroot]
    cases hs : segs p with
    | nil => simp [matchWalk, createNode, Trie.endpoints, mapGet]
    | cons s rest => simp [matchWalk, createNode, Trie.statics, Trie.param, mapGet]
  · intro m p h
    have hd := congrArg String.data h
    simp only [staticKey] at hd
    rw [strDataAppend, strDataAppend, strDataAppend, strDataAppend] at hd
    have hc := List.append_cancel_left hd
    have hlen := congrArg List.length hc
    have h1 : ("/" : String).data = ['/'] := rfl
    rw [h1] at hlen
    simp [List.length_append] at hlen
  · intro root m p
    unfold dynamicMatch
    rw [segs_append_slash]
  · intro root m a b
    unfold dynamicMatch
    rw [segs_double_slash]

theorem static_routes_exact_match_only_witness :
    ((TrieRouter.add {} epA1).toOption.getD {}).root = ({} : TrieRouter).root ∧
    TrieRouter.matchRoute twoRouter .GET ("/a/") = .ok none ∧
    staticKey .GET (("/a" : String) ++ ("/")) ≠ staticKey .GET ("/a") ∧
    dynamicMatch dynRouter.root .GET (("/users/7" : String) ++ ("/")) =
      dynamicMatch dynRouter.root .GET ("/users/7") :=
  ⟨static_routes_exact_match_only.1 {} epA1 ((TrieRouter.add {} epA1).toOption.getD {}) rfl rfl,
   static_routes_exact_match_only.2.1 twoRouter .GET ("/a/") rfl rfl,
   static_routes_exact_match_only.2.2.1 .GET ("/a"),
   static_routes_exact_match_only.2.2.2.2.2.1 dynRouter.root .GET ("/users/7")⟩

theorem insertSeg_twice (segments : List String) :
    ∀ (node : Trie LegacyEndpoint) (e : LegacyEndpoint) (node2 : Trie LegacyEndpoint),
      insertSeg node segments e = .ok node2 →
      insertSeg node2 segments e = .error (.routerError .BAD_REQUEST (dupMsg e.method e.route)) := by
  induction segments with
  | nil =>
    intro node e node2 h
    simp only [insertSeg] at h ⊢
    cases hd : (mapGet node.endpoints e.method).isSome with
    | true => simp [hd] at h
    | false =>
      simp only [hd, Bool.false_eq_true, if_false, Except.ok.injEq] at h
      subst h
      simp only [Trie.endpoints]
      rw [mapGet_mapSet]
      simp
  | cons seg rest ih =>
    intro node e node2 h
    simp only [insertSeg] at h ⊢
    by_cases hc : startsWithColon seg
    · simp only [hc, if_true] at h ⊢
      cases hp : node.param with
      | none =>
        rw [hp] at h
        cases hrec : insertSeg createNode rest e with
        | error err => rw [hrec] at h; simp at h
        | ok child =>
          rw [hrec] at h
          simp only [Except.ok.injEq] at h
          subst h
          simp [Trie.param, ih createNode e child hrec]
      | some pp =>
        obtain ⟨pname, pnode⟩ := pp
        rw [hp] at h
        by_cases hne : pname ≠ seg.drop 1
        · simp [hne] at h
        · simp only [hne, if_false] at h
          cases hrec : insertSeg pnode rest e with
          | error err => rw [hrec] at h; simp at h
          | ok child =>
            rw [hrec] at h
            simp only [Except.ok.injEq] at h
            subst h
            simp [Trie.param, hne, ih pnode e child hrec]
    · simp only [hc, Bool.false_eq_true, if_false] at h ⊢
      cases hrec : insertSeg ((mapGet node.statics seg).getD createNode) rest e with
      | error err => rw [hrec] at h; simp at h
      | ok child =>
        rw [hrec] at h
        simp only [Except.ok.injEq] at h
        subst h
        simp [Trie.statics, mapGet_mapSet, ih _ e child hrec]

theorem insertPath_twice (segments : List String) :
    ∀ (node : Trie RouteEndpoint) (e1 e2 : RouteEndpoint) (m : HTTPMethod)
      (node2 : Trie RouteEndpoint),
      insertPath node segments [m] e1 = .ok node2 →
      ∃ node3, insertPath node2 segments [m] e2 = .ok node3 ∧
        (findPattern node3 segments).bind (fun t => mapGet t.endpoints m) = some e2 := by
  induction segments with
  | nil =>
    intro node e1 e2 m node2 h
    simp only [insertPath, Except.ok.injEq] at h
    subst h
    refine ⟨_, rfl, ?_⟩
    simp [findPattern, Trie.endpoints, mapGet_mapSet]
  | cons seg rest ih =>
    intro node e1 e2 m node2 h
    simp only [insertPath] at h
    by_cases hc : startsWithColon seg
    · simp only [hc, if_true] at h
      cases hp : node.param with
      | none =>
        rw [hp] at h
        cases hrec : insertPath createNode rest [m] e1 with
        | error err => rw [hrec] at h; simp at h
        | ok child =>
          rw [hrec] at h
          simp only [Except.ok.injEq] at h
          subst h
          obtain ⟨c3, hc3, hfind⟩ := ih createNode e1 e2 m child hrec
          refine ⟨.mk node.statics (some (seg.drop 1, c3)) node.endpoints, ?_, ?_⟩
          · simp [insertPath, hc, Trie.param, Trie.statics, Trie.endpoints, hc3]
          · simp [findPattern, hc, Trie.param, hfind]
      | some pp =>
        obtain ⟨pname, pnode⟩ := pp
        rw [hp] at h
        by_cases hne : pname ≠ seg.drop 1
        · simp [hne] at h
        · simp only [hne, if_false] at h
          cases hrec : insertPath pnode rest [m] e1 with
          | error err => rw [hrec] at h; simp at h
          | ok child =>
            rw [hrec] at h
            simp only [Except.ok.injEq] at h
            subst h
            obtain ⟨c3, hc3, hfind⟩ := ih pnode e1 e2 m child hrec
            refine ⟨.mk node.statics (some (pname, c3)) node.endpoints, ?_, ?_⟩
            · simp [insertPath, hc, Trie.param, Trie.statics, Trie.endpoints, hne, hc3]
            · simp [findPattern, hc, Trie.param, hfind]
    · simp only [hc, Bool.false_eq_true, if_false] at h
      cases hrec : insertPath ((mapGet node.statics seg).getD createNode) rest [m] e1 with
      | error err => rw [hrec] at h; simp at h
      | ok child =>
        rw [hrec] at h
        simp only [Except.ok.injEq] at h
        subst h
        obtain ⟨c3, hc3, hfind⟩ := ih _ e1 e2 m child hrec
        refine ⟨.mk (mapSet (mapSet node.statics seg child) seg c3) node.param node.endpoints, ?_, ?_⟩
        · simp [insertPath, hc, Trie.statics, Trie.param, Trie.endpoints, mapGet_mapSet, hc3]
        · simp [findPattern, hc, Trie.statics, mapGet_mapSet, hfind]

/-- Claim C1 (amended): re-registering the same method and pattern
raises the duplicate-endpoint error in the legacy insert-based trie of
router.ts for every pattern; TrieRouter.add of trie.ts, used by the
current createRouter, performs no duplicate check: a second registration
with the same single method and pattern is accepted and silently
replaces the first, for both static and dynamic patterns. -/
theorem duplicate_registration_behavior :
    (∀ (root : Trie LegacyEndpoint) (e : LegacyEndpoint) (root2 : Trie LegacyEndpoint),
      insertRoute root e = .ok root2 →
      insertRoute root2 e = .error (.routerError .BAD_REQUEST (dupMsg e.method e.route))) ∧
    (∀ (r : TrieRouter) (e1 e2 : RouteEndpoint) (m : HTTPMethod) (st1 : TrieRouter),
      e1.method = .one m → e2.method = .one m → e2.route = e1.route →
      TrieRouter.add r e1 = .ok st1 →
      ∃ st2, TrieRouter.add st1 e2 = .ok st2 ∧ observeReg st2 m e2.route = some e2) := by
  constructor
  · intro root e root2 h
    exact insertSeg_twice (segs e.route) root e root2 h
  · intro r e1 e2 m st1 hm1 hm2 hroute hadd
    by_cases hdy : strHasColon e1.route
    · simp only [TrieRouter.add, hm1, MethodSpec.toList, hdy, if_true] at hadd
      cases hrec : insertPath r.root (segs e1.route) [m] e1 with
      | error err => rw [hrec] at hadd; simp at hadd
      | ok root2 =>
        rw [hrec] at hadd
        simp only [Except.ok.injEq] at hadd
        obtain ⟨node3, h3, hfind⟩ := insertPath_twice (segs e1.route) r.root e1 e2 m root2 hrec
        subst hadd
        have hex : ∃ st2, TrieRouter.add
            { root := root2, statics := r.statics,
              methods := List.foldl (fun acc m2 => if acc.contains m2 = true then acc else acc ++ [m2]) r.methods [m] } e2 =
            .ok st2 ∧ st2.root = node3 := by
          simp only [TrieRouter.add, hm2, MethodSpec.toList, hroute, hdy, if_true, h3]
          exact ⟨_, rfl, rfl⟩
        obtain ⟨st2, hstep, hst2root⟩ := hex
        refine ⟨st2, hstep, ?_⟩
        simp [observeReg, hroute, hdy, hst2root, hfind]
    · simp only [TrieRouter.add, hm1, MethodSpec.toList, hdy, Bool.false_eq_true, if_false,
        Except.ok.injEq] at hadd
      subst hadd
      simp only [TrieRouter.add, hm2, MethodSpec.toList, hroute, hdy, Bool.false_eq_true, if_false]
      refine ⟨_, rfl, ?_⟩
      simp [observeReg, hroute, hdy, mapGet_mapSet]

theorem duplicate_registration_behavior_counterexample :
    (∃ st1 st2, TrieRouter.add {} epA1 = .ok st1 ∧ TrieRouter.add st1 epA2 = .ok st2 ∧
      observeReg st2 .GET ("/a") = some epA2) ∧
    (∃ st1 st2, TrieRouter.add {} epD1 = .ok st1 ∧ TrieRouter.add st1 epD2 = .ok st2 ∧
      observeReg st2 .GET ("/u/:id") = some epD2) ∧
    epA2 ≠ epA1 ∧ epD2 ≠ epD1 := by
  refine ⟨⟨_, _, rfl, rfl, rfl⟩, ⟨_, _, rfl, rfl, rfl⟩, ?_, ?_⟩ <;>
    intro h <;> simp [epA1, epA2, epD1, epD2] at h

theorem duplicate_registration_behavior_witness :
    insertRoute ((insertRoute createNode legacyE).toOption.getD createNode) legacyE =
      .error (.routerError .BAD_REQUEST (dupMsg .GET ("/a"))) ∧
    (∃ st2, TrieRouter.add ((TrieRouter.add {} epA1).toOption.getD {}) epA2 = .ok st2 ∧
      observeReg st2 .GET ("/a") = some epA2) :=
  ⟨duplicate_registration_behavior.1 createNode legacyE
      ((insertRoute createNode legacyE).toOption.getD createNode) rfl,
   duplicate_registration_behavior.2 {} epA1 epA2 .GET
      ((TrieRouter.add {} epA1).toOption.getD {}) rfl rfl rfl rfl⟩
